import Mathlib

/-!
Verification of the DLEAPP artifact acquisition and dispatch pipeline
(src/dleapp.py) against its natural-language specification.

The embedding models:
  - the per-plugin dispatch loop of crunch_artifacts (lines 257-301),
  - the seeker construction and finalize phases of crunch_artifacts
    (lines 224-244 and 301-322),
  - the profile loading and plugin selection logic of main
    (lines 131 and 164-188) together with the existence check of
    validate_args (lines 33-34).

Python exceptions are modelled by an explicit exception type; the
observable effects of the run (audit log writes, logfunc messages,
plugin invocations with their arguments, mkdir attempts, progress bar
values, the report generator call) are threaded through an explicit
state record.
-/

/-- Python exceptions relevant to the dispatcher: os.mkdir may raise
FileExistsError, FileNotFoundError, or any other exception such as
PermissionError; the payload is the str of the exception. -/
inductive PyExc where
  | fileExists (msg : String)
  | fileNotFound (msg : String)
  | other (msg : String)
deriving Repr, DecidableEq

/-- str(ex) for a modelled Python exception. -/
def PyExc.toMsg : PyExc → String
  | .fileExists m => m
  | .fileNotFound m => m
  | .other m => m

/-- plugin.search is either a single pattern string or a list/tuple of
pattern strings (dleapp.py lines 260-263 branch on isinstance). -/
inductive SearchSpec where
  | single (s : String)
  | many (ss : List String)

/-- Normalization of plugin.search performed at lines 260-263:
a list or tuple is used as is, a lone string is wrapped in a
singleton list. -/
def searchRegexes : SearchSpec → List String
  | .single s => [s]
  | .many ss => ss

/-- A plugin descriptor as produced by plugin_loader.PluginSpec: a
name, a category (used for the output folder), a module name, search
patterns, and the parse routine.  The parse routine receives the
matched file locations, the category folder, the seeker search
capability and the wrap_text flag; any exception it raises is
modelled as Except.error carrying the str of the exception. -/
structure PluginSpec where
  name : String
  category : String
  module_name : String
  search : SearchSpec
  method : List String → String → (String → List String) → Bool → Except String Unit

/-- The long-path encoding strip applied at lines 273-274 and 313-317:
paths starting with the Windows long-path prefix lose its four
characters. -/
def stripLongPath (p : String) : String :=
  if p.startsWith "\\\\?\\" then p.drop 4 else p

/-- Audit line written when a pattern matched nothing (line 269). -/
def noFileLine (rgx : String) : String :=
  "<ul><li>No file found for regex <i>" ++ rgx ++ "</i></li></ul>"

/-- Audit line written when a pattern matched one or more files
(line 271). -/
def countLine (rgx : String) (found : List String) : String :=
  "<ul><li>" ++ toString found.length ++ " " ++
    (if found.length > 1 then "files" else "file") ++
    " for regex <i>" ++ rgx ++ "</i> located at:"

/-- Audit line written per matched location (line 275), after the
long-path strip of lines 273-274. -/
def pathLine (pathh : String) : String :=
  "<ul><li>" ++ pathh ++ "</li></ul>"

/-- The inner pattern loop of lines 266-277: per search regex, in
declaration order, produce the audit lines written to the processed
files log and accumulate the matched files by list extension.
Returns (audit lines, files_found). -/
def processPatterns (seek : String → List String) : List String → List String × List String
  | [] => ([], [])
  | rgx :: rest =>
    let found := seek rgx
    let pr := processPatterns seek rest
    if found.isEmpty then
      (noFileLine rgx :: pr.fst, pr.snd)
    else
      (countLine rgx found ::
        (found.map (fun pathh => pathLine (stripLongPath pathh)) ++
          ("</li></ul>" :: pr.fst)),
       found ++ pr.snd)

/-- The combined match list of one plugin: the concatenation, in
declaration order, of the search results of each of its patterns. -/
def combinedMatches (seek : String → List String) : List String → List String
  | [] => []
  | rgx :: rest => seek rgx ++ combinedMatches seek rest

/-- Observable state of one dispatch pass: audit log writes
(ProcessedFilesLog.html), logfunc messages, plugin invocations with
the files argument passed to the parse routine, attempted mkdir
calls, the values sent to the progress bar, and the
categories_searched counter. -/
structure DState where
  audit : List String
  messages : List String
  invoked : List (String × List String)
  mkdirCalls : List String
  progress : List Nat
  categories_searched : Nat
deriving Repr, DecidableEq

/-- Initial state of a dispatch pass. -/
def emptyDState : DState :=
  { audit := []
    messages := []
    invoked := []
    mkdirCalls := []
    progress := []
    categories_searched := 0 }

/-- Environment of one run: the seeker search capability, the
os.path.exists and os.mkdir behaviour on folder paths, and whether
each seeker constructor raises at construction time (the carried
string is the exception detail). -/
structure Env where
  seek : String → List String
  pathExists : String → Bool
  mkdir : String → Option PyExc
  seekerInitFs : Option String
  seekerInitTar : Option String
  seekerInitZip : Option String

/-- Result of processing plugins: either the loop ran to completion,
or an uncaught exception aborted it (carrying the state at the point
of the raise). -/
inductive LoopRes where
  | done (st : DState)
  | raised (st : DState) (e : PyExc)
deriving Repr, DecidableEq

/-- State held inside a loop result. -/
def LoopRes.state : LoopRes → DState
  | .done st => st
  | .raised st _ => st

/-- Whether the loop ran to completion. -/
def LoopRes.isDone : LoopRes → Bool
  | .done _ => true
  | .raised _ _ => false

/-- The invocation trace held inside a loop result. -/
def LoopRes.invokedTrace : LoopRes → List (String × List String)
  | .done st => st.invoked
  | .raised st _ => st.invoked

/-- The progress bar values held inside a loop result. -/
def LoopRes.progressValues : LoopRes → List Nat
  | .done st => st.progress
  | .raised st _ => st.progress

/-- The increment of categories_searched and the progress bar report
of lines 299-300. -/
def advanceProgress (r : Nat) (st : DState) : DState :=
  { st with
    categories_searched := st.categories_searched + 1
    progress := st.progress ++ [(st.categories_searched + 1) * r] }

/-- The two logfunc messages of lines 286-287, issued when os.mkdir
raises FileExistsError or FileNotFoundError. -/
def mkdirErrorMsgs (plugin : PluginSpec) (category_folder : String) (m : String) : List String :=
  ["Error creating " ++ plugin.name ++ " report directory at path " ++ category_folder,
   "Error was " ++ m]

/-- Lines 289-297: the plugin parse routine is invoked; any exception
is caught and logged (lines 292-294, the traceback text abstracted by
the exception detail) and the loop continues without advancing the
progress counter; on success the completion message is logged and the
counter advances. -/
def invokePlugin (r : Nat) (wrap_text : Bool) (seek : String → List String)
    (plugin : PluginSpec) (files_found : List String) (category_folder : String)
    (st : DState) : DState :=
  let st := { st with invoked := st.invoked ++ [(plugin.name, files_found)] }
  match plugin.method files_found category_folder seek wrap_text with
  | .error e =>
    { st with messages := st.messages ++
        ["Reading " ++ plugin.name ++ " artifact had errors!",
         "Error was " ++ e,
         "Exception Traceback: " ++ e] }
  | .ok _ =>
    advanceProgress r
      { st with messages := st.messages ++
          [plugin.name ++ " [" ++ plugin.module_name ++ "] artifact completed"] }

/-- One iteration of the for loop over plugins (lines 259-300):
write the audit header and per-pattern entries, and if files were
found, log the start message, ensure the category folder exists
(os.mkdir guarded by os.path.exists; FileExistsError and
FileNotFoundError are caught and cause a continue, any other
exception propagates), then invoke the parse routine.  The progress
counter advances only when the iteration reaches lines 299-300, i.e.
is not cut short by a continue or an uncaught exception. -/
def stepPlugin (env : Env) (report_folder_base : String) (r : Nat) (wrap_text : Bool)
    (plugin : PluginSpec) (st : DState) : LoopRes :=
  let pr := processPatterns env.seek (searchRegexes plugin.search)
  let files_found := pr.snd
  let st1 : DState :=
    { st with audit := st.audit ++ (("<b>For " ++ plugin.name ++ " parser</b>") :: pr.fst) }
  if files_found.isEmpty then
    .done (advanceProgress r st1)
  else
    let st2 : DState :=
      { st1 with messages := st1.messages ++
          ["", plugin.name ++ " [" ++ plugin.module_name ++ "] artifact started"] }
    let category_folder := report_folder_base ++ "/" ++ plugin.category
    if env.pathExists category_folder then
      .done (invokePlugin r wrap_text env.seek plugin files_found category_folder st2)
    else
      let st3 : DState := { st2 with mkdirCalls := st2.mkdirCalls ++ [category_folder] }
      match env.mkdir category_folder with
      | none =>
        .done (invokePlugin r wrap_text env.seek plugin files_found category_folder st3)
      | some (PyExc.fileExists m) =>
        .done { st3 with messages := st3.messages ++ mkdirErrorMsgs plugin category_folder m }
      | some (PyExc.fileNotFound m) =>
        .done { st3 with messages := st3.messages ++ mkdirErrorMsgs plugin category_folder m }
      | some (PyExc.other m) => .raised st3 (PyExc.other m)

/-- The whole for loop of lines 259-300 over the selected plugins. -/
def runPlugins (env : Env) (report_folder_base : String) (r : Nat) (wrap_text : Bool) :
    List PluginSpec → DState → LoopRes
  | [], st => .done st
  | plugin :: rest, st =>
    match stepPlugin env report_folder_base r wrap_text plugin st with
    | .raised st1 e => .raised st1 e
    | .done st1 => runPlugins env report_folder_base r wrap_text rest st1

/-- Outcome of constructing the seeker at lines 224-244. -/
inductive SeekerInit where
  | ok
  | raisedInit (msg : String)
  | badType
deriving Repr, DecidableEq

/-- The if/elif chain of lines 226-237 selecting a seeker class from
the extraction type, combined with the surrounding try of lines
225-244 that catches construction exceptions. -/
def seekerInitFor (env : Env) (extracttype : String) : SeekerInit :=
  if extracttype = "fs" then
    match env.seekerInitFs with
    | none => .ok
    | some m => .raisedInit m
  else if extracttype = "tar" ∨ extracttype = "gz" then
    match env.seekerInitTar with
    | none => .ok
    | some m => .raisedInit m
  else if extracttype = "zip" then
    match env.seekerInitZip with
    | none => .ok
    | some m => .raisedInit m
  else .badType

/-- Python-level result of crunch_artifacts: a returned boolean or an
uncaught exception propagating out of the call. -/
inductive PyResultB where
  | val (b : Bool)
  | exc (e : PyExc)
deriving Repr, DecidableEq

/-- Full observable outcome of crunch_artifacts: its result, the
dispatch state, and the list of input paths passed to
report.generate_report (one entry per call). -/
structure CrunchOut where
  result : PyResultB
  st : DState
  reports : List String
deriving Repr, DecidableEq

/-- crunch_artifacts (lines 210-322): construct the seeker (failure
or an unknown extraction type returns False before the processed
files log is opened, before any plugin runs and before any report is
written); then run the plugin loop; on completion strip the long
path prefix from the input path on Windows (lines 313-317) and call
report.generate_report exactly once (line 318), returning True. -/
def crunch_artifacts (env : Env) (plugins : List PluginSpec) (extracttype : String)
    (input_path : String) (report_folder_base : String) (r : Nat) (wrap_text : Bool)
    (isWindows : Bool) : CrunchOut :=
  match seekerInitFor env extracttype with
  | .badType =>
    { result := .val false
      st := { emptyDState with messages := ["Error on argument -o (input type)"] }
      reports := [] }
  | .raisedInit m =>
    { result := .val false
      st := { emptyDState with messages :=
          ["Had an exception in Seeker - see details below. Terminating Program!", m] }
      reports := [] }
  | .ok =>
    let st0 : DState :=
      { emptyDState with audit := ["Extraction/Path selected: " ++ input_path ++ "<br><br>"] }
    match runPlugins env report_folder_base r wrap_text plugins st0 with
    | .raised st e => { result := .exc e, st := st, reports := ([] : List String) }
    | .done st =>
      let input_path2 := if isWindows then stripLongPath input_path else input_path
      { result := .val true, st := st, reports := [input_path2] }

/-- A JSON value as produced by json.load; numbers restricted to the
integers the profile format uses. -/
inductive JValue where
  | null
  | bool (b : Bool)
  | num (n : Int)
  | str (s : String)
  | arr (elems : List JValue)
  | obj (fields : List (String × JValue))

/-- Python dict.get on a JSON object: json.load keeps the last
binding of a duplicated key, so lookup takes the last match. -/
def jGet (fields : List (String × JValue)) (key : String) : Option JValue :=
  fields.foldl (fun acc kv => if kv.fst = key then some kv.snd else acc) none

/-- the Python test profile.get("leapp") == "dleapp": true exactly
when the field is present and is the string dleapp. -/
def getIsDleapp (fields : List (String × JValue)) : Bool :=
  match jGet fields "leapp" with
  | some (JValue.str s) => s = "dleapp"
  | _ => false

/-- the Python test profile.get("format_version") == 1: true when the
field is the number 1, or the boolean True (which Python compares
equal to 1). -/
def getVersionIsOne (fields : List (String × JValue)) : Bool :=
  match jGet fields "format_version" with
  | some (JValue.num n) => n = 1
  | some (JValue.bool b) => b
  | _ => false

/-- Python set(v) for the value of the plugins field, modelled for
name membership tests: a list keeps its string elements (a non
string element can never compare equal to a plugin name string), a
string yields its characters, a dict its keys; any other value is
not iterable and raises TypeError, modelled as none. -/
def jSetOfNames : JValue → Option (List String)
  | JValue.arr xs =>
    some (xs.filterMap (fun v => match v with | JValue.str s => some s | _ => none))
  | JValue.str s => some (s.data.map (fun c => String.mk [c]))
  | JValue.obj fields => some (fields.map (fun kv => kv.fst))
  | _ => none

/-- Outcome of the profile handling in main: the distinct error exits
and the plugin list the run proceeds with.  notFound is the
ArgumentError raised by validate_args at lines 33-34 when the
profile path does not exist; parseError is the JSONDecodeError exit
at lines 170-173; invalidProfile covers the wrong tag or version
exit at lines 177-180 and the non-dict exit at lines 185-188;
typeError is an uncaught TypeError from set() on a non-iterable
plugins value; proceed carries the selected plugin list handed to
crunch_artifacts. -/
inductive ProfileOutcome where
  | notFound
  | parseError (msg : String)
  | invalidProfile (msg : String)
  | typeError
  | proceed (selected : List PluginSpec)

/-- Whether the run goes on to dispatch: main reaches
crunch_artifacts only on the proceed outcome, every other outcome
returns first. -/
def ProfileOutcome.dispatches : ProfileOutcome → Bool
  | .proceed _ => true
  | _ => false

/-- The profile loading of main, lines 164-188, guarded by the
existence check of validate_args lines 33-34: the file content is
given as the result of json.load (Except.error is a
JSONDecodeError).  A dict with the right leapp tag and format
version selects from the available plugins exactly those whose name
is in the set built from the plugins field (defaulting to an empty
list when the field is missing), in registry order. -/
def load_profile (available_plugins : List PluginSpec) (profileExists : Bool)
    (parsed : Except String JValue) : ProfileOutcome :=
  if profileExists = false then .notFound
  else
    match parsed with
    | .error msg => .parseError ("File was not a valid profile file: " ++ msg)
    | .ok profile =>
      match profile with
      | JValue.obj fields =>
        if !getIsDleapp fields || !getVersionIsOne fields then
          .invalidProfile "File was not a valid profile file: incorrect LEAPP or version"
        else
          match jSetOfNames (match jGet fields "plugins" with
                             | some v => v
                             | none => JValue.arr []) with
          | none => .typeError
          | some profile_plugins =>
            .proceed (available_plugins.filter (fun p => profile_plugins.contains p.name))
      | _ => .invalidProfile "File was not a valid profile file: invalid format"

/-- Plugin selection of main: selected_plugins starts as a copy of
the full registry (line 131) and is replaced by the profile filter
only when a profile argument is supplied (lines 164-188). -/
def selected_plugins_for (available_plugins : List PluginSpec)
    (profileArg : Option (Bool × Except String JValue)) : ProfileOutcome :=
  match profileArg with
  | none => .proceed available_plugins
  | some pe => load_profile available_plugins pe.fst pe.snd

/-- The audit log lines one plugin contributes, per pattern in
declaration order: the header of line 265 followed by the per
pattern entries of lines 266-277.  This depends only on the seeker
search results, never on the parse routine, the folder creation
outcome, or whether the plugin ends up invoked. -/
def auditFor (env : Env) (plugin : PluginSpec) : List String :=
  ("<b>For " ++ plugin.name ++ " parser</b>") ::
    (processPatterns env.seek (searchRegexes plugin.search)).fst

/-- The audit log lines a list of plugins contributes, in order. -/
def auditTrail (env : Env) : List PluginSpec → List String
  | [] => []
  | plugin :: rest => auditFor env plugin ++ auditTrail env rest

/-- Whether the loop iteration for one plugin reaches lines 299-300
and advances the progress counter: it does when the combined match
list is empty (plain skip) or when the folder is usable and the
parse routine succeeds; a caught folder creation error or a parse
routine exception hits a continue first, and an uncaught folder
creation error aborts the loop. -/
def stepAdvances (env : Env) (report_folder_base : String) (wrap_text : Bool)
    (plugin : PluginSpec) : Bool :=
  let files_found := (processPatterns env.seek (searchRegexes plugin.search)).snd
  if files_found.isEmpty then true
  else
    let category_folder := report_folder_base ++ "/" ++ plugin.category
    if env.pathExists category_folder || (env.mkdir category_folder).isNone then
      match plugin.method files_found category_folder env.seek wrap_text with
      | .ok _ => true
      | .error _ => false
    else false

/-- The sequence of progress bar values produced by a list of
plugins when the counter starts at c: each advancing plugin appends
the next counter value times the ratio. -/
def progressTrace (env : Env) (report_folder_base : String) (r : Nat) (wrap_text : Bool)
    (c : Nat) : List PluginSpec → List Nat
  | [] => []
  | plugin :: rest =>
    if stepAdvances env report_folder_base wrap_text plugin then
      ((c + 1) * r) :: progressTrace env report_folder_base r wrap_text (c + 1) rest
    else progressTrace env report_folder_base r wrap_text c rest

/-- The list c+1, c+2, ..., c+k of successive counter values. -/
def countedFrom (c : Nat) : Nat → List Nat
  | 0 => []
  | Nat.succ k => (c + 1) :: countedFrom (c + 1) k

/-- Test environment: a seeker with three patterns that match (p1 and
p2 both resolve to the same location a, q resolves to two files),
every folder already existing, mkdir succeeding, and all seeker
constructors succeeding. -/
def envHappy : Env :=
  { seek := fun rgx =>
      if rgx = "p1" then ["a"]
      else if rgx = "p2" then ["a"]
      else if rgx = "q" then ["f1", "f2"]
      else []
    pathExists := fun _ => true
    mkdir := fun _ => none
    seekerInitFs := none
    seekerInitTar := none
    seekerInitZip := none }

/-- Test environment in which no category folder exists and mkdir
raises FileNotFoundError. -/
def envNoFolder : Env :=
  { envHappy with
    pathExists := fun _ => false
    mkdir := fun _ => some (PyExc.fileNotFound "No such file or directory") }

/-- Test environment in which no category folder exists and mkdir
raises PermissionError, an exception kind the dispatcher does not
catch. -/
def envPerm : Env :=
  { envHappy with
    pathExists := fun _ => false
    mkdir := fun _ => some (PyExc.other "Permission denied") }

/-- Test plugin whose single pattern matches two files and whose
parse routine succeeds. -/
def pOk1 : PluginSpec :=
  { name := "ok1"
    category := "CatA"
    module_name := "ok1mod"
    search := SearchSpec.single "q"
    method := fun _ _ _ _ => Except.ok () }

/-- Test plugin whose single pattern matches two files and whose
parse routine always raises. -/
def pBoom : PluginSpec :=
  { name := "boom"
    category := "CatB"
    module_name := "boommod"
    search := SearchSpec.single "q"
    method := fun _ _ _ _ => Except.error "boom" }

/-- Test plugin whose single pattern matches one file and whose
parse routine succeeds. -/
def pOk3 : PluginSpec :=
  { name := "ok3"
    category := "CatC"
    module_name := "ok3mod"
    search := SearchSpec.single "p1"
    method := fun _ _ _ _ => Except.ok () }

/-- Test plugin with two patterns that both match the same location. -/
def pDup : PluginSpec :=
  { name := "dup"
    category := "CatD"
    module_name := "dupmod"
    search := SearchSpec.many ["p1", "p2"]
    method := fun _ _ _ _ => Except.ok () }

/-- Test plugin whose pattern matches nothing. -/
def pZero : PluginSpec :=
  { name := "zero"
    category := "CatZ"
    module_name := "zeromod"
    search := SearchSpec.single "nomatch"
    method := fun _ _ _ _ => Except.ok () }

/-- Expected final state of a run of pZero alone under envHappy. -/
def stC6 : DState :=
  { audit := ["<b>For zero parser</b>",
      "<ul><li>No file found for regex <i>nomatch</i></li></ul>"]
    messages := []
    invoked := []
    mkdirCalls := []
    progress := [1]
    categories_searched := 1 }

/-- Expected final state of a run of pBoom then pZero under envHappy:
the failing plugin does not advance the progress counter, the
empty-match plugin does. -/
def stC9 : DState :=
  { audit := ["<b>For boom parser</b>",
      "<ul><li>2 files for regex <i>q</i> located at:",
      "<ul><li>f1</li></ul>", "<ul><li>f2</li></ul>", "</li></ul>",
      "<b>For zero parser</b>",
      "<ul><li>No file found for regex <i>nomatch</i></li></ul>"]
    messages := ["", "boom [boommod] artifact started",
      "Reading boom artifact had errors!", "Error was boom",
      "Exception Traceback: boom"]
    invoked := [("boom", ["f1", "f2"])]
    mkdirCalls := []
    progress := [1]
    categories_searched := 1 }

/-- The files accumulated by the pattern loop are the concatenation
of the per-pattern search results in declaration order. -/
theorem processPatterns_snd (seek : String → List String) (rs : List String) :
    (processPatterns seek rs).snd = combinedMatches seek rs := by
  induction rs with
  | nil => rfl
  | cons rgx rest ih =>
    simp only [processPatterns, combinedMatches]
    by_cases h : (seek rgx).isEmpty
    · have h0 : seek rgx = [] := by simpa using h
      simp [h, h0, ih]
    · simp [h, ih]

/-- Invoking a plugin never writes to the processed files log. -/
theorem invokePlugin_audit (r : Nat) (w : Bool) (seek : String → List String)
    (p : PluginSpec) (files : List String) (folder : String) (st : DState) :
    (invokePlugin r w seek p files folder st).audit = st.audit := by
  unfold invokePlugin
  split <;> rfl

/-- One loop iteration appends exactly the audit lines of the plugin,
whatever branch it takes. -/
theorem stepPlugin_audit (env : Env) (base : String) (r : Nat) (w : Bool)
    (p : PluginSpec) (st : DState) :
    (stepPlugin env base r w p st).state.audit = st.audit ++ auditFor env p := by
  unfold stepPlugin
  dsimp only
  split
  · rfl
  · split
    · simp [LoopRes.state, invokePlugin_audit, auditFor]
    · split <;> simp [LoopRes.state, invokePlugin_audit, auditFor]

/-- Loop iteration for a plugin whose combined match list is empty:
only the audit lines and the progress advance happen. -/
theorem stepPlugin_empty_eq (env : Env) (base : String) (r : Nat) (w : Bool)
    (p : PluginSpec) (st : DState)
    (h : combinedMatches env.seek (searchRegexes p.search) = []) :
    stepPlugin env base r w p st = .done
      { st with
        audit := st.audit ++ auditFor env p
        progress := st.progress ++ [(st.categories_searched + 1) * r]
        categories_searched := st.categories_searched + 1 } := by
  have hs : (processPatterns env.seek (searchRegexes p.search)).snd = [] := by
    rw [processPatterns_snd]; exact h
  unfold stepPlugin
  dsimp only
  rw [hs]
  simp [advanceProgress, auditFor]

/-- Invocation when the parse routine raises: the invocation and the
three error messages are recorded, the progress state is untouched. -/
theorem invokePlugin_error_eq (r : Nat) (w : Bool) (seek : String → List String)
    (p : PluginSpec) (files : List String) (folder : String) (st : DState) (e : String)
    (h : p.method files folder seek w = Except.error e) :
    invokePlugin r w seek p files folder st =
      { st with
        messages := st.messages ++
          ["Reading " ++ p.name ++ " artifact had errors!",
           "Error was " ++ e,
           "Exception Traceback: " ++ e]
        invoked := st.invoked ++ [(p.name, files)] } := by
  unfold invokePlugin
  dsimp only
  rw [h]

/-- Invocation when the parse routine succeeds: the invocation, the
completion message and the progress advance are recorded. -/
theorem invokePlugin_ok_eq (r : Nat) (w : Bool) (seek : String → List String)
    (p : PluginSpec) (files : List String) (folder : String) (st : DState)
    (h : p.method files folder seek w = Except.ok ()) :
    invokePlugin r w seek p files folder st =
      { st with
        messages := st.messages ++
          [p.name ++ " [" ++ p.module_name ++ "] artifact completed"]
        invoked := st.invoked ++ [(p.name, files)]
        progress := st.progress ++ [(st.categories_searched + 1) * r]
        categories_searched := st.categories_searched + 1 } := by
  unfold invokePlugin
  dsimp only
  rw [h]
  simp [advanceProgress]

/-- Loop iteration with matches and an already existing category
folder: the plugin is invoked on the combined matches. -/
theorem stepPlugin_invoke_eq (env : Env) (base : String) (r : Nat) (w : Bool)
    (p : PluginSpec) (st : DState)
    (hne : combinedMatches env.seek (searchRegexes p.search) ≠ [])
    (hex : env.pathExists (base ++ "/" ++ p.category) = true) :
    stepPlugin env base r w p st = .done
      (invokePlugin r w env.seek p (combinedMatches env.seek (searchRegexes p.search))
        (base ++ "/" ++ p.category)
        { st with
          audit := st.audit ++ auditFor env p
          messages := st.messages ++
            ["", p.name ++ " [" ++ p.module_name ++ "] artifact started"] }) := by
  have hs : (processPatterns env.seek (searchRegexes p.search)).snd =
      combinedMatches env.seek (searchRegexes p.search) := processPatterns_snd _ _
  have hemp : (combinedMatches env.seek (searchRegexes p.search)).isEmpty = false := by
    cases hc : combinedMatches env.seek (searchRegexes p.search) with
    | nil => exact absurd hc hne
    | cons a as => rfl
  unfold stepPlugin
  dsimp only
  rw [hs, hemp, hex]
  simp [auditFor]

/-- Loop iteration with matches, a missing category folder and a
successful mkdir: the attempt is recorded and the plugin invoked. -/
theorem stepPlugin_mkdir_none_eq (env : Env) (base : String) (r : Nat) (w : Bool)
    (p : PluginSpec) (st : DState)
    (hne : combinedMatches env.seek (searchRegexes p.search) ≠ [])
    (hex : env.pathExists (base ++ "/" ++ p.category) = false)
    (hmk : env.mkdir (base ++ "/" ++ p.category) = none) :
    stepPlugin env base r w p st = .done
      (invokePlugin r w env.seek p (combinedMatches env.seek (searchRegexes p.search))
        (base ++ "/" ++ p.category)
        { st with
          audit := st.audit ++ auditFor env p
          messages := st.messages ++
            ["", p.name ++ " [" ++ p.module_name ++ "] artifact started"]
          mkdirCalls := st.mkdirCalls ++ [base ++ "/" ++ p.category] }) := by
  have hs : (processPatterns env.seek (searchRegexes p.search)).snd =
      combinedMatches env.seek (searchRegexes p.search) := processPatterns_snd _ _
  have hemp : (combinedMatches env.seek (searchRegexes p.search)).isEmpty = false := by
    cases hc : combinedMatches env.seek (searchRegexes p.search) with
    | nil => exact absurd hc hne
    | cons a as => rfl
  unfold stepPlugin
  dsimp only
  rw [hs, hemp, hex, hmk]
  simp [auditFor]

/-- Loop iteration with matches and a mkdir that raises one of the
two caught exception kinds: errors are logged, the plugin is skipped
with a continue, and nothing else happens. -/
theorem stepPlugin_mkdir_caught_eq (env : Env) (base : String) (r : Nat) (w : Bool)
    (p : PluginSpec) (st : DState) (m : String)
    (hne : combinedMatches env.seek (searchRegexes p.search) ≠ [])
    (hex : env.pathExists (base ++ "/" ++ p.category) = false)
    (hmk : env.mkdir (base ++ "/" ++ p.category) = some (PyExc.fileNotFound m) ∨
           env.mkdir (base ++ "/" ++ p.category) = some (PyExc.fileExists m)) :
    stepPlugin env base r w p st = .done
      { st with
        audit := st.audit ++ auditFor env p
        messages := st.messages ++
          ["", p.name ++ " [" ++ p.module_name ++ "] artifact started"] ++
          mkdirErrorMsgs p (base ++ "/" ++ p.category) m
        mkdirCalls := st.mkdirCalls ++ [base ++ "/" ++ p.category] } := by
  have hs : (processPatterns env.seek (searchRegexes p.search)).snd =
      combinedMatches env.seek (searchRegexes p.search) := processPatterns_snd _ _
  have hemp : (combinedMatches env.seek (searchRegexes p.search)).isEmpty = false := by
    cases hc : combinedMatches env.seek (searchRegexes p.search) with
    | nil => exact absurd hc hne
    | cons a as => rfl
  unfold stepPlugin
  dsimp only
  rw [hs, hemp, hex]
  cases hmk with
  | inl h => rw [h]; simp [auditFor, List.append_assoc]
  | inr h => rw [h]; simp [auditFor, List.append_assoc]

/-- Loop iteration with matches and a mkdir that raises any other
exception kind: the exception is not caught and aborts the loop. -/
theorem stepPlugin_mkdir_other_eq (env : Env) (base : String) (r : Nat) (w : Bool)
    (p : PluginSpec) (st : DState) (m : String)
    (hne : combinedMatches env.seek (searchRegexes p.search) ≠ [])
    (hex : env.pathExists (base ++ "/" ++ p.category) = false)
    (hmk : env.mkdir (base ++ "/" ++ p.category) = some (PyExc.other m)) :
    stepPlugin env base r w p st = .raised
      { st with
        audit := st.audit ++ auditFor env p
        messages := st.messages ++
          ["", p.name ++ " [" ++ p.module_name ++ "] artifact started"]
        mkdirCalls := st.mkdirCalls ++ [base ++ "/" ++ p.category] }
      (PyExc.other m) := by
  have hs : (processPatterns env.seek (searchRegexes p.search)).snd =
      combinedMatches env.seek (searchRegexes p.search) := processPatterns_snd _ _
  have hemp : (combinedMatches env.seek (searchRegexes p.search)).isEmpty = false := by
    cases hc : combinedMatches env.seek (searchRegexes p.search) with
    | nil => exact absurd hc hne
    | cons a as => rfl
  unfold stepPlugin
  dsimp only
  rw [hs, hemp, hex, hmk]
  simp [auditFor]

/-- Unfolding the plugin loop after a completed iteration. -/
theorem runPlugins_cons_done (env : Env) (base : String) (r : Nat) (w : Bool)
    (p : PluginSpec) (rest : List PluginSpec) (st st1 : DState)
    (h : stepPlugin env base r w p st = .done st1) :
    runPlugins env base r w (p :: rest) st = runPlugins env base r w rest st1 := by
  simp only [runPlugins, h]

/-- Unfolding the plugin loop after an aborted iteration. -/
theorem runPlugins_cons_raised (env : Env) (base : String) (r : Nat) (w : Bool)
    (p : PluginSpec) (rest : List PluginSpec) (st st1 : DState) (e : PyExc)
    (h : stepPlugin env base r w p st = .raised st1 e) :
    runPlugins env base r w (p :: rest) st = .raised st1 e := by
  simp only [runPlugins, h]

/-- A plugin with no matches advances the counter. -/
theorem stepAdvances_empty (env : Env) (base : String) (w : Bool) (p : PluginSpec)
    (h : combinedMatches env.seek (searchRegexes p.search) = []) :
    stepAdvances env base w p = true := by
  simp [stepAdvances, processPatterns_snd, h]

/-- A plugin with matches, a usable folder and a successful parse
routine advances the counter. -/
theorem stepAdvances_ok (env : Env) (base : String) (w : Bool) (p : PluginSpec)
    (husable : env.pathExists (base ++ "/" ++ p.category) = true ∨
               env.mkdir (base ++ "/" ++ p.category) = none)
    (hok : p.method (combinedMatches env.seek (searchRegexes p.search))
      (base ++ "/" ++ p.category) env.seek w = Except.ok ()) :
    stepAdvances env base w p = true := by
  unfold stepAdvances
  dsimp only
  rw [processPatterns_snd]
  by_cases hcm : combinedMatches env.seek (searchRegexes p.search) = []
  · simp [hcm]
  · have hemp : (combinedMatches env.seek (searchRegexes p.search)).isEmpty = false := by
      cases hc : combinedMatches env.seek (searchRegexes p.search) with
      | nil => exact absurd hc hcm
      | cons a as => rfl
    rw [hemp]
    cases husable with
    | inl h => simp [h, hok]
    | inr h => simp [h, hok]

/-- A plugin whose parse routine raises does not advance the counter. -/
theorem stepAdvances_err (env : Env) (base : String) (w : Bool) (p : PluginSpec) (e : String)
    (hne : combinedMatches env.seek (searchRegexes p.search) ≠ [])
    (herr : p.method (combinedMatches env.seek (searchRegexes p.search))
      (base ++ "/" ++ p.category) env.seek w = Except.error e) :
    stepAdvances env base w p = false := by
  unfold stepAdvances
  dsimp only
  rw [processPatterns_snd]
  have hemp : (combinedMatches env.seek (searchRegexes p.search)).isEmpty = false := by
    cases hc : combinedMatches env.seek (searchRegexes p.search) with
    | nil => exact absurd hc hne
    | cons a as => rfl
  rw [hemp]
  by_cases h : env.pathExists (base ++ "/" ++ p.category) ||
      (env.mkdir (base ++ "/" ++ p.category)).isNone
  · simp [h, herr]
  · simp [h]

/-- A plugin whose folder creation raises does not advance the
counter. -/
theorem stepAdvances_caught (env : Env) (base : String) (w : Bool) (p : PluginSpec) (e : PyExc)
    (hne : combinedMatches env.seek (searchRegexes p.search) ≠ [])
    (hex : env.pathExists (base ++ "/" ++ p.category) = false)
    (hmk : env.mkdir (base ++ "/" ++ p.category) = some e) :
    stepAdvances env base w p = false := by
  unfold stepAdvances
  dsimp only
  rw [processPatterns_snd]
  have hemp : (combinedMatches env.seek (searchRegexes p.search)).isEmpty = false := by
    cases hc : combinedMatches env.seek (searchRegexes p.search) with
    | nil => exact absurd hc hne
    | cons a as => rfl
  rw [hemp, hex, hmk]
  rfl

/-- When mkdir never raises an uncaught exception kind, every loop
iteration completes. -/
theorem stepPlugin_done_exists (env : Env) (base : String) (r : Nat) (w : Bool)
    (p : PluginSpec) (st : DState)
    (hmk : ∀ f m, env.mkdir f ≠ some (PyExc.other m)) :
    ∃ st1, stepPlugin env base r w p st = .done st1 := by
  by_cases hcm : combinedMatches env.seek (searchRegexes p.search) = []
  · exact ⟨_, stepPlugin_empty_eq env base r w p st hcm⟩
  · by_cases hex : env.pathExists (base ++ "/" ++ p.category) = true
    · exact ⟨_, stepPlugin_invoke_eq env base r w p st hcm hex⟩
    · have hex2 : env.pathExists (base ++ "/" ++ p.category) = false := by
        simpa using hex
      cases hmk2 : env.mkdir (base ++ "/" ++ p.category) with
      | none => exact ⟨_, stepPlugin_mkdir_none_eq env base r w p st hcm hex2 hmk2⟩
      | some e =>
        cases e with
        | fileExists m =>
          exact ⟨_, stepPlugin_mkdir_caught_eq env base r w p st m hcm hex2 (Or.inr hmk2)⟩
        | fileNotFound m =>
          exact ⟨_, stepPlugin_mkdir_caught_eq env base r w p st m hcm hex2 (Or.inl hmk2)⟩
        | other m => exact absurd hmk2 (hmk (base ++ "/" ++ p.category) m)

/-- When mkdir never raises an uncaught exception kind, the whole
loop completes. -/
theorem runPlugins_done_exists (env : Env) (base : String) (r : Nat) (w : Bool)
    (plugins : List PluginSpec) (st : DState)
    (hmk : ∀ f m, env.mkdir f ≠ some (PyExc.other m)) :
    ∃ st1, runPlugins env base r w plugins st = .done st1 := by
  induction plugins generalizing st with
  | nil => exact ⟨st, rfl⟩
  | cons p rest ih =>
    obtain ⟨st2, h2⟩ := stepPlugin_done_exists env base r w p st hmk
    obtain ⟨st3, h3⟩ := ih st2
    exact ⟨st3, by rw [runPlugins_cons_done env base r w p rest st st2 h2]; exact h3⟩

/-- Progress values and counter of a completed loop: each advancing
plugin appends the next counter value, non-advancing plugins leave
both untouched. -/
theorem runPlugins_progress (env : Env) (base : String) (r : Nat) (w : Bool)
    (plugins : List PluginSpec) :
    ∀ st st1, runPlugins env base r w plugins st = .done st1 →
      st1.progress = st.progress ++
        progressTrace env base r w st.categories_searched plugins ∧
      st1.categories_searched = st.categories_searched +
        plugins.countP (fun q => stepAdvances env base w q) := by
  induction plugins with
  | nil =>
    intro st st1 hdone
    simp only [runPlugins] at hdone
    injection hdone with h
    subst h
    simp [progressTrace]
  | cons p rest ih =>
    intro st st1 hdone
    by_cases hcm : combinedMatches env.seek (searchRegexes p.search) = []
    · rw [runPlugins_cons_done env base r w p rest st _
        (stepPlugin_empty_eq env base r w p st hcm)] at hdone
      obtain ⟨h1, h2⟩ := ih _ _ hdone
      have hadv := stepAdvances_empty env base w p hcm
      refine ⟨?_, ?_⟩
      · rw [h1]; simp [progressTrace, hadv, List.append_assoc]
      · rw [h2]; simp [List.countP_cons, hadv]; omega
    · by_cases hex : env.pathExists (base ++ "/" ++ p.category) = true
      · cases hmet : p.method (combinedMatches env.seek (searchRegexes p.search))
          (base ++ "/" ++ p.category) env.seek w with
        | ok u =>
          cases u
          rw [runPlugins_cons_done env base r w p rest st _
            (by rw [stepPlugin_invoke_eq env base r w p st hcm hex,
                    invokePlugin_ok_eq _ _ _ _ _ _ _ hmet])] at hdone
          obtain ⟨h1, h2⟩ := ih _ _ hdone
          have hadv := stepAdvances_ok env base w p (Or.inl hex) hmet
          refine ⟨?_, ?_⟩
          · rw [h1]; simp [progressTrace, hadv, List.append_assoc]
          · rw [h2]; simp [List.countP_cons, hadv]; omega
        | error e =>
          rw [runPlugins_cons_done env base r w p rest st _
            (by rw [stepPlugin_invoke_eq env base r w p st hcm hex,
                    invokePlugin_error_eq _ _ _ _ _ _ _ _ hmet])] at hdone
          obtain ⟨h1, h2⟩ := ih _ _ hdone
          have hadv := stepAdvances_err env base w p e hcm hmet
          refine ⟨?_, ?_⟩
          · rw [h1]; simp [progressTrace, hadv]
          · rw [h2]; simp [List.countP_cons, hadv]
      · have hex2 : env.pathExists (base ++ "/" ++ p.category) = false := by simpa using hex
        cases hmk2 : env.mkdir (base ++ "/" ++ p.category) with
        | none =>
          cases hmet : p.method (combinedMatches env.seek (searchRegexes p.search))
            (base ++ "/" ++ p.category) env.seek w with
          | ok u =>
            cases u
            rw [runPlugins_cons_done env base r w p rest st _
              (by rw [stepPlugin_mkdir_none_eq env base r w p st hcm hex2 hmk2,
                      invokePlugin_ok_eq _ _ _ _ _ _ _ hmet])] at hdone
            obtain ⟨h1, h2⟩ := ih _ _ hdone
            have hadv := stepAdvances_ok env base w p (Or.inr hmk2) hmet
            refine ⟨?_, ?_⟩
            · rw [h1]; simp [progressTrace, hadv, List.append_assoc]
            · rw [h2]; simp [List.countP_cons, hadv]; omega
          | error e =>
            rw [runPlugins_cons_done env base r w p rest st _
              (by rw [stepPlugin_mkdir_none_eq env base r w p st hcm hex2 hmk2,
                      invokePlugin_error_eq _ _ _ _ _ _ _ _ hmet])] at hdone
            obtain ⟨h1, h2⟩ := ih _ _ hdone
            have hadv := stepAdvances_err env base w p e hcm hmet
            refine ⟨?_, ?_⟩
            · rw [h1]; simp [progressTrace, hadv]
            · rw [h2]; simp [List.countP_cons, hadv]
        | some e =>
          cases e with
          | fileExists m =>
            rw [runPlugins_cons_done env base r w p rest st _
              (stepPlugin_mkdir_caught_eq env base r w p st m hcm hex2 (Or.inr hmk2))] at hdone
            obtain ⟨h1, h2⟩ := ih _ _ hdone
            have hadv := stepAdvances_caught env base w p _ hcm hex2 hmk2
            refine ⟨?_, ?_⟩
            · rw [h1]; simp [progressTrace, hadv]
            · rw [h2]; simp [List.countP_cons, hadv]
          | fileNotFound m =>
            rw [runPlugins_cons_done env base r w p rest st _
              (stepPlugin_mkdir_caught_eq env base r w p st m hcm hex2 (Or.inl hmk2))] at hdone
            obtain ⟨h1, h2⟩ := ih _ _ hdone
            have hadv := stepAdvances_caught env base w p _ hcm hex2 hmk2
            refine ⟨?_, ?_⟩
            · rw [h1]; simp [progressTrace, hadv]
            · rw [h2]; simp [List.countP_cons, hadv]
          | other m =>
            rw [runPlugins_cons_raised env base r w p rest st _ _
              (stepPlugin_mkdir_other_eq env base r w p st m hcm hex2 hmk2)] at hdone
            cases hdone

/-- With ratio one the progress values are the successive counter
values, one per advancing plugin. -/
theorem progressTrace_one (env : Env) (base : String) (w : Bool) (plugins : List PluginSpec) :
    ∀ c, progressTrace env base 1 w c plugins =
      countedFrom c (plugins.countP (fun q => stepAdvances env base w q)) := by
  induction plugins with
  | nil => intro c; simp [progressTrace, countedFrom]
  | cons p rest ih =>
    intro c
    by_cases hadv : stepAdvances env base w p = true
    · simp [progressTrace, hadv, List.countP_cons, ih, countedFrom]
    · have hadv2 : stepAdvances env base w p = false := by simpa using hadv
      simp [progressTrace, hadv2, List.countP_cons, ih]

/-- Every element of countedFrom c k is greater than c. -/
theorem countedFrom_gt (k : Nat) : ∀ c x, x ∈ countedFrom c k → c < x := by
  induction k with
  | zero => intro c x hx; simp [countedFrom] at hx
  | succ k ih =>
    intro c x hx
    rw [countedFrom] at hx
    rcases List.mem_cons.mp hx with h | h
    · omega
    · have := ih (c + 1) x h; omega

/-- countedFrom is strictly increasing. -/
theorem countedFrom_pairwise (k : Nat) : ∀ c, (countedFrom c k).Pairwise (fun a b => a < b) := by
  induction k with
  | zero => intro c; simp [countedFrom]
  | succ k ih =>
    intro c
    rw [countedFrom]
    refine List.Pairwise.cons ?_ (ih (c + 1))
    intro b hb
    have := countedFrom_gt k (c + 1) b hb
    omega

/-- countedFrom of a positive length is not empty. -/
theorem countedFrom_ne_nil (k : Nat) (c : Nat) (h : k ≠ 0) : countedFrom c k ≠ [] := by
  cases k with
  | zero => exact absurd rfl h
  | succ k => rw [countedFrom]; exact List.cons_ne_nil _ _

/-- The last element of countedFrom c k is c plus k. -/
theorem countedFrom_getLast (k : Nat) : ∀ c, k ≠ 0 → (countedFrom c k).getLast? = some (c + k) := by
  induction k with
  | zero => intro c h; exact absurd rfl h
  | succ k ih =>
    intro c _
    rw [countedFrom]
    by_cases hk : k = 0
    · subst hk; simp [countedFrom]
    · cases hl : countedFrom (c + 1) k with
      | nil => exact absurd hl (countedFrom_ne_nil k (c + 1) hk)
      | cons y ys =>
        have h2 := ih (c + 1) hk
        rw [hl] at h2
        rw [List.getLast?_cons_cons, h2]
        congr 1
        omega

/-- Extracting the string elements of a list of JSON strings gives
back the strings. -/
theorem filterMap_str (names : List String) :
    (names.map JValue.str).filterMap
      (fun v => match v with | JValue.str s => some s | _ => none) = names := by
  induction names with
  | nil => rfl
  | cons n rest ih =>
    rw [List.map_cons, List.filterMap_cons]
    dsimp only
    rw [ih]

/-- The set built from a JSON list of name strings holds exactly
those names. -/
theorem jSetOfNames_strs (names : List String) :
    jSetOfNames (JValue.arr (names.map JValue.str)) = some names := by
  simp only [jSetOfNames]
  rw [filterMap_str]

/-- Filtering by membership in the empty name set keeps nothing. -/
theorem filter_contains_nil (available : List PluginSpec) :
    available.filter (fun p => ([] : List String).contains p.name) = [] := by
  induction available with
  | nil => rfl
  | cons p rest ih => simp [List.filter, ih]

/-- Claim C1: fault isolation.  If a plugin with matches and a usable
output folder has a parse routine that raises, the dispatcher catches
the exception, logs the plugin identity and the failure detail, and
the dispatch continues with exactly the remaining plugins from the
state extended only by the audit lines, the log messages and the
invocation record. -/
theorem c1_parse_failure_is_isolated (env : Env) (base : String) (r : Nat) (w : Bool)
    (p : PluginSpec) (rest : List PluginSpec) (st : DState) (e : String)
    (hne : combinedMatches env.seek (searchRegexes p.search) ≠ [])
    (hex : env.pathExists (base ++ "/" ++ p.category) = true)
    (herr : p.method (combinedMatches env.seek (searchRegexes p.search))
      (base ++ "/" ++ p.category) env.seek w = Except.error e) :
    runPlugins env base r w (p :: rest) st =
      runPlugins env base r w rest
        { st with
          audit := st.audit ++ auditFor env p
          messages := st.messages ++
            ["", p.name ++ " [" ++ p.module_name ++ "] artifact started"] ++
            ["Reading " ++ p.name ++ " artifact had errors!",
             "Error was " ++ e,
             "Exception Traceback: " ++ e]
          invoked := st.invoked ++
            [(p.name, combinedMatches env.seek (searchRegexes p.search))] } := by
  rw [runPlugins_cons_done env base r w p rest st _
    (by rw [stepPlugin_invoke_eq env base r w p st hne hex,
            invokePlugin_error_eq _ _ _ _ _ _ _ _ herr])]

/-- Witness for C1 at a concrete input, including the three plugin
scenario: the second plugin raises, yet the first and third are
invoked and the pass completes. -/
theorem c1_witness :
    (combinedMatches envHappy.seek (searchRegexes pBoom.search) ≠ [] ∧
     envHappy.pathExists ("out" ++ "/" ++ pBoom.category) = true ∧
     pBoom.method (combinedMatches envHappy.seek (searchRegexes pBoom.search))
       ("out" ++ "/" ++ pBoom.category) envHappy.seek true = Except.error "boom") ∧
    runPlugins envHappy "out" 1 true (pBoom :: [pOk3]) emptyDState =
      runPlugins envHappy "out" 1 true [pOk3]
        { emptyDState with
          audit := emptyDState.audit ++ auditFor envHappy pBoom
          messages := emptyDState.messages ++
            ["", pBoom.name ++ " [" ++ pBoom.module_name ++ "] artifact started"] ++
            ["Reading " ++ pBoom.name ++ " artifact had errors!",
             "Error was " ++ "boom",
             "Exception Traceback: " ++ "boom"]
          invoked := emptyDState.invoked ++
            [(pBoom.name, combinedMatches envHappy.seek (searchRegexes pBoom.search))] } ∧
    (runPlugins envHappy "out" 1 true [pOk1, pBoom, pOk3] emptyDState).isDone = true ∧
    (runPlugins envHappy "out" 1 true [pOk1, pBoom, pOk3] emptyDState).invokedTrace =
      [("ok1", ["f1", "f2"]), ("boom", ["f1", "f2"]), ("ok3", ["a"])] :=
  ⟨⟨by decide, rfl, rfl⟩,
   c1_parse_failure_is_isolated envHappy "out" 1 true pBoom [pOk3] emptyDState "boom"
     (by decide) rfl rfl,
   by decide, by decide⟩

/-- Counterexample to C2 as stated: under envHappy the plugin pDup
has two patterns that both match location a, and the argument passed
to its parse routine contains a twice, not once, because files_found
is a list extended per pattern, not a set. -/
theorem c2_duplicates_not_collapsed :
    (runPlugins envHappy "out" 1 true [pDup] emptyDState).invokedTrace =
      [("dup", ["a", "a"])] ∧
    ¬ (∀ pr ∈ (runPlugins envHappy "out" 1 true [pDup] emptyDState).invokedTrace,
        pr.snd.countP (fun x => x == "a") ≤ 1) :=
  ⟨by decide, by decide⟩

/-- Claim C2 as amended: the matched locations accumulated across a
plugin patterns form the concatenation of the per pattern results in
declaration order, duplicates preserved, and exactly that list is
the argument passed to the parse routine. -/
theorem c2_matches_concatenated (env : Env) (base : String) (r : Nat) (w : Bool)
    (p : PluginSpec) (rest : List PluginSpec) (st : DState)
    (hne : combinedMatches env.seek (searchRegexes p.search) ≠ [])
    (hex : env.pathExists (base ++ "/" ++ p.category) = true)
    (hok : p.method (combinedMatches env.seek (searchRegexes p.search))
      (base ++ "/" ++ p.category) env.seek w = Except.ok ()) :
    runPlugins env base r w (p :: rest) st =
      runPlugins env base r w rest
        { st with
          audit := st.audit ++ auditFor env p
          messages := st.messages ++
            ["", p.name ++ " [" ++ p.module_name ++ "] artifact started"] ++
            [p.name ++ " [" ++ p.module_name ++ "] artifact completed"]
          invoked := st.invoked ++
            [(p.name, combinedMatches env.seek (searchRegexes p.search))]
          progress := st.progress ++ [(st.categories_searched + 1) * r]
          categories_searched := st.categories_searched + 1 } := by
  rw [runPlugins_cons_done env base r w p rest st _
    (by rw [stepPlugin_invoke_eq env base r w p st hne hex,
            invokePlugin_ok_eq _ _ _ _ _ _ _ hok])]

/-- Witness for C2 as amended at a concrete input. -/
theorem c2_witness :
    (combinedMatches envHappy.seek (searchRegexes pDup.search) ≠ [] ∧
     envHappy.pathExists ("out" ++ "/" ++ pDup.category) = true ∧
     pDup.method (combinedMatches envHappy.seek (searchRegexes pDup.search))
       ("out" ++ "/" ++ pDup.category) envHappy.seek true = Except.ok ()) ∧
    runPlugins envHappy "out" 1 true (pDup :: []) emptyDState =
      runPlugins envHappy "out" 1 true []
        { emptyDState with
          audit := emptyDState.audit ++ auditFor envHappy pDup
          messages := emptyDState.messages ++
            ["", pDup.name ++ " [" ++ pDup.module_name ++ "] artifact started"] ++
            [pDup.name ++ " [" ++ pDup.module_name ++ "] artifact completed"]
          invoked := emptyDState.invoked ++
            [(pDup.name, combinedMatches envHappy.seek (searchRegexes pDup.search))]
          progress := emptyDState.progress ++ [(emptyDState.categories_searched + 1) * 1]
          categories_searched := emptyDState.categories_searched + 1 } :=
  ⟨⟨by decide, rfl, rfl⟩,
   c2_matches_concatenated envHappy "out" 1 true pDup [] emptyDState
     (by decide) rfl rfl⟩

/-- Counterexample to C3 as stated: a folder creation failure of a
kind other than FileExistsError or FileNotFoundError (here
PermissionError) does not make the dispatcher log and skip the
plugin; it aborts the loop, and the following plugin is never
processed. -/
theorem c3_uncaught_mkdir_exception_aborts :
    (runPlugins envPerm "out" 1 true [pOk1, pOk3] emptyDState).isDone = false ∧
    (runPlugins envPerm "out" 1 true [pOk1, pOk3] emptyDState).invokedTrace = [] :=
  ⟨by decide, by decide⟩

/-- Claim C3 as amended: when folder creation raises FileExistsError
or FileNotFoundError, the dispatcher logs the failure and skips only
this plugin, continuing with exactly the remaining plugins; any
other exception kind is not caught (see the counterexample). -/
theorem c3_caught_mkdir_failure_skips_plugin (env : Env) (base : String) (r : Nat) (w : Bool)
    (p : PluginSpec) (rest : List PluginSpec) (st : DState) (m : String)
    (hne : combinedMatches env.seek (searchRegexes p.search) ≠ [])
    (hex : env.pathExists (base ++ "/" ++ p.category) = false)
    (hmk : env.mkdir (base ++ "/" ++ p.category) = some (PyExc.fileNotFound m) ∨
           env.mkdir (base ++ "/" ++ p.category) = some (PyExc.fileExists m)) :
    runPlugins env base r w (p :: rest) st =
      runPlugins env base r w rest
        { st with
          audit := st.audit ++ auditFor env p
          messages := st.messages ++
            ["", p.name ++ " [" ++ p.module_name ++ "] artifact started"] ++
            mkdirErrorMsgs p (base ++ "/" ++ p.category) m
          mkdirCalls := st.mkdirCalls ++ [base ++ "/" ++ p.category] } := by
  rw [runPlugins_cons_done env base r w p rest st _
    (stepPlugin_mkdir_caught_eq env base r w p st m hne hex hmk)]

/-- Witness for C3 as amended at a concrete input. -/
theorem c3_witness :
    (combinedMatches envNoFolder.seek (searchRegexes pOk1.search) ≠ [] ∧
     envNoFolder.pathExists ("out" ++ "/" ++ pOk1.category) = false ∧
     envNoFolder.mkdir ("out" ++ "/" ++ pOk1.category) =
       some (PyExc.fileNotFound "No such file or directory")) ∧
    runPlugins envNoFolder "out" 1 true (pOk1 :: [pOk3]) emptyDState =
      runPlugins envNoFolder "out" 1 true [pOk3]
        { emptyDState with
          audit := emptyDState.audit ++ auditFor envNoFolder pOk1
          messages := emptyDState.messages ++
            ["", pOk1.name ++ " [" ++ pOk1.module_name ++ "] artifact started"] ++
            mkdirErrorMsgs pOk1 ("out" ++ "/" ++ pOk1.category) "No such file or directory"
          mkdirCalls := emptyDState.mkdirCalls ++ ["out" ++ "/" ++ pOk1.category] } :=
  ⟨⟨by decide, rfl, rfl⟩,
   c3_caught_mkdir_failure_skips_plugin envNoFolder "out" 1 true pOk1 [pOk3] emptyDState
     "No such file or directory" (by decide) rfl (Or.inl rfl)⟩

/-- Claim C4: profile loading fails closed.  A missing profile file
is the distinct notFound error from validate_args; a malformed
serialization is a parseError; a well formed object with a wrong
leapp tag or a format version other than one, or a non object value,
is an invalidProfile error.  None of the error outcomes carries a
plugin list, none reaches dispatch, and the rejection outcomes are
distinct from notFound. -/
theorem c4_profile_fails_closed (available : List PluginSpec)
    (parsed : Except String JValue) (msg : String)
    (fields : List (String × JValue)) (v : JValue) :
    (selected_plugins_for available (some (false, parsed)) = ProfileOutcome.notFound) ∧
    (selected_plugins_for available (some (true, Except.error msg)) =
      ProfileOutcome.parseError ("File was not a valid profile file: " ++ msg)) ∧
    ((getIsDleapp fields = false ∨ getVersionIsOne fields = false) →
      selected_plugins_for available (some (true, Except.ok (JValue.obj fields))) =
        ProfileOutcome.invalidProfile
          "File was not a valid profile file: incorrect LEAPP or version") ∧
    ((∀ fs, v ≠ JValue.obj fs) →
      selected_plugins_for available (some (true, Except.ok v)) =
        ProfileOutcome.invalidProfile "File was not a valid profile file: invalid format") ∧
    (∀ m2 sel, ProfileOutcome.parseError m2 ≠ ProfileOutcome.notFound ∧
      ProfileOutcome.invalidProfile m2 ≠ ProfileOutcome.notFound ∧
      ProfileOutcome.parseError m2 ≠ ProfileOutcome.proceed sel ∧
      ProfileOutcome.invalidProfile m2 ≠ ProfileOutcome.proceed sel) ∧
    (∀ m2, (ProfileOutcome.parseError m2).dispatches = false ∧
      (ProfileOutcome.invalidProfile m2).dispatches = false ∧
      ProfileOutcome.notFound.dispatches = false) := by
  refine ⟨rfl, rfl, ?_, ?_, ?_, ?_⟩
  · intro h
    cases h with
    | inl h => simp [selected_plugins_for, load_profile, h]
    | inr h => simp [selected_plugins_for, load_profile, h]
  · intro h
    cases v with
    | obj fs => exact absurd rfl (h fs)
    | null => rfl
    | bool b => rfl
    | num n => rfl
    | str s => rfl
    | arr xs => rfl
  · intro m2 sel
    refine ⟨?_, ?_, ?_, ?_⟩ <;> intro h <;> cases h
  · intro m2
    exact ⟨rfl, rfl, rfl⟩

/-- Witness for C4 at concrete inputs: a wrong leapp tag and a non
object profile value are both rejected. -/
theorem c4_witness :
    ((getIsDleapp [("leapp", JValue.str "aleapp")] = false ∨
      getVersionIsOne [("leapp", JValue.str "aleapp")] = false) ∧
     selected_plugins_for []
         (some (true, Except.ok (JValue.obj [("leapp", JValue.str "aleapp")]))) =
       ProfileOutcome.invalidProfile
         "File was not a valid profile file: incorrect LEAPP or version") ∧
    ((∀ fs, JValue.arr ([] : List JValue) ≠ JValue.obj fs) ∧
     selected_plugins_for [] (some (true, Except.ok (JValue.arr []))) =
       ProfileOutcome.invalidProfile "File was not a valid profile file: invalid format") := by
  have h1 : (getIsDleapp [("leapp", JValue.str "aleapp")] = false ∨
      getVersionIsOne [("leapp", JValue.str "aleapp")] = false) := Or.inl rfl
  have h2 : ∀ fs, JValue.arr ([] : List JValue) ≠ JValue.obj fs := fun fs h => by cases h
  exact ⟨⟨h1, (c4_profile_fails_closed [] (Except.ok JValue.null) "x"
      [("leapp", JValue.str "aleapp")] (JValue.arr [])).2.2.1 h1⟩,
    ⟨h2, (c4_profile_fails_closed [] (Except.ok JValue.null) "x"
      [("leapp", JValue.str "aleapp")] (JValue.arr [])).2.2.2.1 h2⟩⟩

/-- Claim C5: profile selection semantics.  With a valid profile the
selected list is exactly the registry filtered to the profiled
names, in registry order (names absent from the registry simply
select nothing and cause no error); with no profile the full
registry is selected. -/
theorem c5_profile_selection (available : List PluginSpec) (names : List String)
    (fields : List (String × JValue))
    (h1 : jGet fields "leapp" = some (JValue.str "dleapp"))
    (h2 : jGet fields "format_version" = some (JValue.num 1))
    (h3 : jGet fields "plugins" = some (JValue.arr (names.map JValue.str))) :
    selected_plugins_for available (some (true, Except.ok (JValue.obj fields))) =
      ProfileOutcome.proceed (available.filter (fun p => names.contains p.name)) ∧
    selected_plugins_for available none = ProfileOutcome.proceed available := by
  constructor
  · simp [selected_plugins_for, load_profile, getIsDleapp, getVersionIsOne,
      h1, h2, h3, jSetOfNames_strs]
  · rfl

/-- Witness for C5 at a concrete input: the profile names ok1, ghost
and ok3; ghost matches no registry plugin and is silently dropped. -/
theorem c5_witness :
    (jGet [("leapp", JValue.str "dleapp"), ("format_version", JValue.num 1),
        ("plugins", JValue.arr (["ok1", "ghost", "ok3"].map JValue.str))] "leapp" =
      some (JValue.str "dleapp") ∧
     jGet [("leapp", JValue.str "dleapp"), ("format_version", JValue.num 1),
        ("plugins", JValue.arr (["ok1", "ghost", "ok3"].map JValue.str))] "format_version" =
      some (JValue.num 1) ∧
     jGet [("leapp", JValue.str "dleapp"), ("format_version", JValue.num 1),
        ("plugins", JValue.arr (["ok1", "ghost", "ok3"].map JValue.str))] "plugins" =
      some (JValue.arr (["ok1", "ghost", "ok3"].map JValue.str))) ∧
    (selected_plugins_for [pOk1, pBoom, pOk3]
        (some (true, Except.ok (JValue.obj
          [("leapp", JValue.str "dleapp"), ("format_version", JValue.num 1),
           ("plugins", JValue.arr (["ok1", "ghost", "ok3"].map JValue.str))]))) =
      ProfileOutcome.proceed
        ([pOk1, pBoom, pOk3].filter
          (fun p => (["ok1", "ghost", "ok3"] : List String).contains p.name)) ∧
     selected_plugins_for [pOk1, pBoom, pOk3] none =
      ProfileOutcome.proceed [pOk1, pBoom, pOk3]) :=
  ⟨⟨rfl, rfl, rfl⟩,
   c5_profile_selection [pOk1, pBoom, pOk3] ["ok1", "ghost", "ok3"]
     [("leapp", JValue.str "dleapp"), ("format_version", JValue.num 1),
      ("plugins", JValue.arr (["ok1", "ghost", "ok3"].map JValue.str))] rfl rfl rfl⟩

/-- Claim C6: audit completeness.  A completed dispatch pass writes
to the processed files log exactly, for every plugin in order, the
header and the per pattern entries (a no file note for zero matches,
or the count, the stripped locations and a closing tag for one or
more matches), and these lines depend only on the seeker results:
they are written whether or not the plugin was invoked, since
auditFor mentions neither the parse routine nor the folders. -/
theorem c6_audit_completeness (env : Env) (base : String) (r : Nat) (w : Bool)
    (plugins : List PluginSpec) :
    ∀ st st1, runPlugins env base r w plugins st = .done st1 →
      st1.audit = st.audit ++ auditTrail env plugins := by
  induction plugins with
  | nil =>
    intro st st1 hdone
    simp only [runPlugins] at hdone
    injection hdone with h
    subst h
    simp [auditTrail]
  | cons p rest ih =>
    intro st st1 hdone
    cases hs : stepPlugin env base r w p st with
    | raised st2 e =>
      rw [runPlugins_cons_raised env base r w p rest st st2 e hs] at hdone
      cases hdone
    | done st2 =>
      rw [runPlugins_cons_done env base r w p rest st st2 hs] at hdone
      have ha := stepPlugin_audit env base r w p st
      rw [hs] at ha
      have h2 := ih st2 st1 hdone
      rw [h2]
      simp only [LoopRes.state] at ha
      rw [ha, auditTrail, List.append_assoc]

/-- Witness for C6 at a concrete input: a plugin with zero matches is
never invoked, yet its audit entries are written. -/
theorem c6_witness :
    runPlugins envHappy "out" 1 true [pZero] emptyDState = .done stC6 ∧
    stC6.audit = emptyDState.audit ++ auditTrail envHappy [pZero] :=
  ⟨by decide,
   c6_audit_completeness envHappy "out" 1 true [pZero] emptyDState stC6 (by decide)⟩

/-- Claim C7: empty match skip.  A plugin whose combined match list
is empty only contributes its audit entries and the progress
advance: no message is logged, the parse routine is not invoked, no
mkdir is attempted, and the dispatch continues normally with the
remaining plugins. -/
theorem c7_empty_match_skip (env : Env) (base : String) (r : Nat) (w : Bool)
    (p : PluginSpec) (rest : List PluginSpec) (st : DState)
    (h : combinedMatches env.seek (searchRegexes p.search) = []) :
    runPlugins env base r w (p :: rest) st =
      runPlugins env base r w rest
        { st with
          audit := st.audit ++ auditFor env p
          progress := st.progress ++ [(st.categories_searched + 1) * r]
          categories_searched := st.categories_searched + 1 } := by
  rw [runPlugins_cons_done env base r w p rest st _
    (stepPlugin_empty_eq env base r w p st h)]

/-- Witness for C7 at a concrete input. -/
theorem c7_witness :
    combinedMatches envHappy.seek (searchRegexes pZero.search) = [] ∧
    runPlugins envHappy "out" 1 true (pZero :: [pOk3]) emptyDState =
      runPlugins envHappy "out" 1 true [pOk3]
        { emptyDState with
          audit := emptyDState.audit ++ auditFor envHappy pZero
          progress := emptyDState.progress ++ [(emptyDState.categories_searched + 1) * 1]
          categories_searched := emptyDState.categories_searched + 1 } :=
  ⟨by decide,
   c7_empty_match_skip envHappy "out" 1 true pZero [pOk3] emptyDState (by decide)⟩

/-- Counterexample to C8 as stated: with the seeker constructed
successfully, a folder creation failure of an uncaught kind
(PermissionError) prevents Finalize; the call ends in an uncaught
exception and the report generator is never called, although the
claim promises success and exactly one report call whenever seeker
construction succeeds. -/
theorem c8_mkdir_exception_prevents_finalize :
    (crunch_artifacts envPerm [pOk1] "fs" "in" "out" 1 true false).result =
      PyResultB.exc (PyExc.other "Permission denied") ∧
    (crunch_artifacts envPerm [pOk1] "fs" "in" "out" 1 true false).reports = [] :=
  ⟨by decide, by decide⟩

/-- Claim C8 as amended: if seeker construction raises or the
container kind is unrecognized, crunch_artifacts returns False with
no plugin invoked, no audit entry and no report; otherwise, provided
no folder creation raises an uncaught exception kind, it runs to
Finalize and returns True with the report generator called exactly
once on the de-prefixed input path, whatever the parse routines did. -/
theorem c8_run_boundary (env : Env) (plugins : List PluginSpec) (t input base : String)
    (r : Nat) (w win : Bool)
    (hmk : ∀ f m, env.mkdir f ≠ some (PyExc.other m)) :
    (seekerInitFor env t ≠ SeekerInit.ok →
      (crunch_artifacts env plugins t input base r w win).result = PyResultB.val false ∧
      (crunch_artifacts env plugins t input base r w win).reports = [] ∧
      (crunch_artifacts env plugins t input base r w win).st.invoked = [] ∧
      (crunch_artifacts env plugins t input base r w win).st.audit = []) ∧
    (seekerInitFor env t = SeekerInit.ok →
      (crunch_artifacts env plugins t input base r w win).result = PyResultB.val true ∧
      (crunch_artifacts env plugins t input base r w win).reports =
        [if win then stripLongPath input else input]) := by
  constructor
  · intro hne
    cases hs : seekerInitFor env t with
    | ok => exact absurd hs hne
    | raisedInit m => simp [crunch_artifacts, hs, emptyDState]
    | badType => simp [crunch_artifacts, hs, emptyDState]
  · intro hok
    obtain ⟨st1, hdone⟩ := runPlugins_done_exists env base r w plugins
      { emptyDState with
        audit := ["Extraction/Path selected: " ++ input ++ "<br><br>"] } hmk
    simp [crunch_artifacts, hok, hdone]

/-- Witness for C8 as amended at concrete inputs: one run with a
valid container kind finalizes with one report call, one run with an
unrecognized kind fails before any plugin or audit entry. -/
theorem c8_witness :
    (∀ f m, envHappy.mkdir f ≠ some (PyExc.other m)) ∧
    ((crunch_artifacts envHappy [pOk1] "fs" "in" "out" 1 true false).result =
        PyResultB.val true ∧
     (crunch_artifacts envHappy [pOk1] "fs" "in" "out" 1 true false).reports =
        [if false then stripLongPath "in" else "in"]) ∧
    ((crunch_artifacts envHappy [pOk1] "xyz" "in" "out" 1 true false).result =
        PyResultB.val false ∧
     (crunch_artifacts envHappy [pOk1] "xyz" "in" "out" 1 true false).reports = [] ∧
     (crunch_artifacts envHappy [pOk1] "xyz" "in" "out" 1 true false).st.invoked = [] ∧
     (crunch_artifacts envHappy [pOk1] "xyz" "in" "out" 1 true false).st.audit = []) := by
  have hmk : ∀ f m, envHappy.mkdir f ≠ some (PyExc.other m) := fun f m h => by cases h
  exact ⟨hmk,
    (c8_run_boundary envHappy [pOk1] "fs" "in" "out" 1 true false hmk).2 rfl,
    (c8_run_boundary envHappy [pOk1] "xyz" "in" "out" 1 true false hmk).1 (by decide)⟩

/-- Counterexample to C9 as stated: one selected plugin whose parse
routine raises; the run completes but the progress counter is never
advanced, so its final value is not the number of plugins in the
list. -/
theorem c9_failed_plugin_does_not_advance :
    (runPlugins envHappy "out" 1 true [pBoom] emptyDState).isDone = true ∧
    (runPlugins envHappy "out" 1 true [pBoom] emptyDState).progressValues = [] ∧
    ¬ ((runPlugins envHappy "out" 1 true [pBoom] emptyDState).progressValues = [1]) :=
  ⟨by decide, by decide, by decide⟩

/-- Claim C9 as amended: in a completed pass the progress counter is
advanced exactly once per plugin processed without an isolated
failure (empty match skip or successful invocation); plugins whose
folder creation failed with a caught kind or whose parse routine
raised hit a continue before the increment.  The reported values are
strictly increasing and the final value is the number of plugins
processed without isolated failure. -/
theorem c9_progress_monotone (env : Env) (base : String) (w : Bool)
    (plugins : List PluginSpec) (st st1 : DState)
    (hp : st.progress = []) (hc : st.categories_searched = 0)
    (hdone : runPlugins env base 1 w plugins st = .done st1) :
    st1.progress = countedFrom 0 (plugins.countP (fun q => stepAdvances env base w q)) ∧
    st1.progress.Pairwise (fun a b => a < b) ∧
    (plugins.countP (fun q => stepAdvances env base w q) ≠ 0 →
      st1.progress.getLast? =
        some (plugins.countP (fun q => stepAdvances env base w q))) := by
  obtain ⟨h1, _⟩ := runPlugins_progress env base 1 w plugins st st1 hdone
  rw [hp, hc, progressTrace_one, List.nil_append] at h1
  refine ⟨h1, ?_, ?_⟩
  · rw [h1]; exact countedFrom_pairwise _ 0
  · intro hk
    rw [h1, countedFrom_getLast _ 0 hk, Nat.zero_add]

/-- Witness for C9 as amended at a concrete input: of two plugins the
failing one does not advance, the empty match one does, so the final
progress value is one, the number of plugins processed without
failure. -/
theorem c9_witness :
    (emptyDState.progress = [] ∧ emptyDState.categories_searched = 0 ∧
     runPlugins envHappy "out" 1 true [pBoom, pZero] emptyDState = .done stC9) ∧
    (stC9.progress =
        countedFrom 0 ([pBoom, pZero].countP (fun q => stepAdvances envHappy "out" true q)) ∧
     stC9.progress.Pairwise (fun a b => a < b) ∧
     ([pBoom, pZero].countP (fun q => stepAdvances envHappy "out" true q) ≠ 0 →
       stC9.progress.getLast? =
         some ([pBoom, pZero].countP (fun q => stepAdvances envHappy "out" true q)))) :=
  ⟨⟨rfl, rfl, by decide⟩,
   c9_progress_monotone envHappy "out" true [pBoom, pZero] emptyDState stC9 rfl rfl
     (by decide)⟩

/-- Claim C10: a well formed profile object with the right tag and
version but no plugins field at all is accepted and selects the
empty plugin list (the plugins field defaults to an empty list, so
every registry plugin is filtered out), and a dispatch over zero
plugins invokes nothing. -/
theorem c10_missing_plugins_field (available : List PluginSpec) :
    selected_plugins_for available
        (some (true, Except.ok (JValue.obj
          [("leapp", JValue.str "dleapp"), ("format_version", JValue.num 1)]))) =
      ProfileOutcome.proceed [] ∧
    (∀ env t input base r w win,
      (crunch_artifacts env [] t input base (r : Nat) (w : Bool) win).st.invoked = []) := by
  constructor
  · have h0 : selected_plugins_for available
        (some (true, Except.ok (JValue.obj
          [("leapp", JValue.str "dleapp"), ("format_version", JValue.num 1)]))) =
        ProfileOutcome.proceed
          (available.filter (fun p => ([] : List String).contains p.name)) := by
      simp [selected_plugins_for, load_profile, getIsDleapp, getVersionIsOne,
        jGet, jSetOfNames]
    rw [h0, filter_contains_nil]
  · intro env t input base r w win
    cases hs : seekerInitFor env t with
    | ok => simp [crunch_artifacts, hs, runPlugins, emptyDState]
    | raisedInit m => simp [crunch_artifacts, hs, emptyDState]
    | badType => simp [crunch_artifacts, hs, emptyDState]
